import Mathlib

/-!
Shallow embedding of the tuneapi repository (a REST facade over torchtune):
the recipe runner (`run.py`), the file copier (`cp.py`), the config settings
reader (`configs.py`), the Hugging Face download path (`download.py`) and the
`POST /run` HTTP handler (`src/tuneapi/app.py`), together with theorems
settling the frozen claims about them.

Modelling conventions:
* Python exceptions are an explicit `PyErr` sum; fallible code returns
  `Except PyErr α`.
* External collaborators (the torchtune install location, the registry
  snapshot, the hub backends, the filesystem) are passed in as explicit
  parameters, so every definition is executable on concrete inputs.
* Strings of raised messages follow the source, with single quotes around
  interpolated values dropped.
-/

deriving instance DecidableEq for Except

namespace Tuneapi

/-! ### Registry data model (torchtune `_recipe_registry`) -/

/-- A config entry of the external recipe registry: a name and a file path
relative to the `recipes/configs` directory. -/
structure Config where
  name : String
  file_path : String
deriving DecidableEq

/-- A recipe entry of the external recipe registry. -/
structure Recipe where
  name : String
  file_path : String
  configs : List Config
  supports_distributed : Bool
deriving DecidableEq

/-- Python exception values that the embedded code can raise. -/
inductive PyErr where
  | typeError (msg : String)
  | valueError (msg : String)
  | attributeError (msg : String)
  | fileNotFoundError (msg : String)
  | omegaConfError (msg : String)
  | runtimeError (msg : String)
  | genericExc (msg : String)
deriving DecidableEq

/-- `str(e)` on an exception: its message. -/
def pyErrMsg : PyErr → String
  | PyErr.typeError m => m
  | PyErr.valueError m => m
  | PyErr.attributeError m => m
  | PyErr.fileNotFoundError m => m
  | PyErr.omegaConfError m => m
  | PyErr.runtimeError m => m
  | PyErr.genericExc m => m

/-! ### Recipe runner (`run.py`) -/

/-- What `_run_recipe` hands to the execution layer: either the
single-device `sys.argv` assignment followed by `runpy`, or the argument
object given to torch's distributed launcher. -/
inductive LaunchAction where
  | singleDevice (argv : List String) (is_builtin : Bool)
  | distributedLaunch (training_script : String) (training_script_args : List String)
      (nproc_per_node : Nat) (rdzv_endpoint : Option String)
      (standalone : Bool) (module : Bool)
deriving DecidableEq

/-- `next((r for r in _recipe_registry.get_all_recipes() if r.name == recipe_name), None)` -/
def findRecipe (registry : List Recipe) (recipe_name : String) : Option Recipe :=
  registry.find? (fun r => r.name == recipe_name)

/-- `recipe_name.replace("/", ".")` — the dotted import path used for
recipes that are not in the registry. -/
def dottedPath (recipe_name : String) : String :=
  recipe_name.replace "/" "."

/-- The `recipe_path` computed by `_run_recipe`: registry hit resolves under
`ROOT / "recipes"`, miss becomes a dotted module path. -/
def resolvedRecipePath (root : String) (registry : List Recipe) (recipe_name : String) : String :=
  match findRecipe registry recipe_name with
  | none => dottedPath recipe_name
  | some r => root ++ "/recipes/" ++ r.file_path

/-- The `supports_distributed` local of `_run_recipe`: initialised to `True`
and overwritten only when the recipe is found in the registry. -/
def supportsDistributedFlag (registry : List Recipe) (recipe_name : String) : Bool :=
  match findRecipe registry recipe_name with
  | none => true
  | some r => r.supports_distributed

/-- The config lookup of `_run_recipe`, kept faithful to the source:
`config = None; if recipe: config = next(...)`, then
`if not config: config = next((c for c in recipe.configs ...))`.
The second lookup reads `recipe.configs` without a `None` guard, so when the
recipe was not found it raises `AttributeError`. -/
def findConfigTwice (recipe : Option Recipe) (config_name : String) :
    Except PyErr (Option Config) :=
  let config : Option Config :=
    match recipe with
    | some r => r.configs.find? (fun c => c.name == config_name)
    | none => none
  match config with
  | some c => Except.ok (some c)
  | none =>
    match recipe with
    | some r => Except.ok (r.configs.find? (fun c => c.name == config_name))
    | none => Except.error (PyErr.attributeError "NoneType object has no attribute configs")

/-- The `config_path` computed by `_run_recipe`: a registry hit resolves
under `ROOT / "recipes" / "configs"`, otherwise the name is used as a direct
path; the lookup itself can raise (see `findConfigTwice`). -/
def resolveConfigPath (root : String) (registry : List Recipe)
    (recipe_name config_name : String) : Except PyErr String :=
  match findConfigTwice (findRecipe registry recipe_name) config_name with
  | Except.error e => Except.error e
  | Except.ok none => Except.ok config_name
  | Except.ok (some c) => Except.ok (root ++ "/recipes/configs/" ++ c.file_path)

/-- The message of the `ValueError` raised for a distributed run of a recipe
that declares no distributed support. -/
def distributedUnsupportedMsg (recipe_name : String) : String :=
  "Recipe " ++ recipe_name ++ " does not support distributed training"

/-- `sys.argv` as assigned by `_run_single_device`. -/
def singleDeviceArgv (recipe_path config_path : String) : List String :=
  [recipe_path, "--config", config_path]

/-- `_run_recipe` from `run.py`: resolves the recipe and config, then either
raises for an unsupported distributed request, hands a launch specification
to the distributed launcher, or executes single-device. The
`sys.path.append(os.getcwd())` side effect is not observable in the results
and is omitted. -/
def run_recipe (root : String) (registry : List Recipe)
    (recipe_name config_name : String) (distributed : Bool)
    (num_processes : Nat) (rdzv_endpoint : Option String)
    (is_builtin : Bool) : Except PyErr LaunchAction :=
  match resolveConfigPath root registry recipe_name config_name with
  | Except.error e => Except.error e
  | Except.ok config_path =>
    let recipe_path := resolvedRecipePath root registry recipe_name
    if distributed then
      if !(supportsDistributedFlag registry recipe_name) then
        Except.error (PyErr.valueError (distributedUnsupportedMsg recipe_name))
      else
        Except.ok (LaunchAction.distributedLaunch recipe_path ["--config", config_path]
          num_processes rdzv_endpoint rdzv_endpoint.isNone (!is_builtin))
    else
      Except.ok (LaunchAction.singleDevice (singleDeviceArgv recipe_path config_path) is_builtin)

/-! ### Concrete registry fixtures used by closed theorems -/

/-- A sample registered config. -/
def demoConfig : Config := { name := "demo_cfg", file_path := "demo/demo_cfg.yaml" }

/-- A sample registered recipe owning `demoConfig`; declares no distributed
support. -/
def demoRecipe : Recipe :=
  { name := "demo", file_path := "demo.py", configs := [demoConfig],
    supports_distributed := false }

/-! ### Helper lemmas about the runner -/

/-- When the recipe was found, the double config lookup never raises: it
returns the (single) lookup result. -/
theorem findConfigTwice_some (r : Recipe) (config_name : String) :
    findConfigTwice (some r) config_name =
      Except.ok (r.configs.find? (fun c => c.name == config_name)) := by
  cases h : r.configs.find? (fun c => c.name == config_name) <;>
    simp [findConfigTwice, h]

/-- When the recipe was found, `resolveConfigPath` never raises. -/
theorem resolveConfigPath_found (root : String) (registry : List Recipe)
    (recipe_name config_name : String) (r : Recipe)
    (hr : findRecipe registry recipe_name = some r) :
    ∃ p, resolveConfigPath root registry recipe_name config_name = Except.ok p := by
  unfold resolveConfigPath
  rw [hr, findConfigTwice_some]
  cases r.configs.find? (fun c => c.name == config_name) <;> simp

/-- When the recipe was not found, the config lookup raises
`AttributeError`: `recipe` is `None` and the unguarded second lookup reads
`recipe.configs`. -/
theorem resolveConfigPath_not_found (root : String) (registry : List Recipe)
    (recipe_name config_name : String)
    (hr : findRecipe registry recipe_name = none) :
    resolveConfigPath root registry recipe_name config_name =
      Except.error (PyErr.attributeError "NoneType object has no attribute configs") := by
  unfold resolveConfigPath
  rw [hr]
  rfl

/-! ### Claim theorems about the runner -/

/-- C2. The claim says that for a recipe name absent from the registry the
config resolution does not raise and resolves `config_name` as a direct
path, the duplicated lookup being unobservable. On the code this is false:
for the unregistered recipe name `user.recipes.mine` the first lookup is
skipped (`if recipe:`), and the duplicated, unguarded second lookup
evaluates `recipe.configs` with `recipe = None`, raising `AttributeError`
before any path is resolved. A single guarded lookup would instead have
resolved the direct path `my_config.yaml`. -/
theorem config_fallback_attribute_error :
    findRecipe [demoRecipe] "user.recipes.mine" = none ∧
    resolveConfigPath "/tt" [demoRecipe] "user.recipes.mine" "my_config.yaml" =
      Except.error (PyErr.attributeError "NoneType object has no attribute configs") ∧
    run_recipe "/tt" [demoRecipe] "user.recipes.mine" "my_config.yaml" false 1 none false =
      Except.error (PyErr.attributeError "NoneType object has no attribute configs") := by
  refine ⟨by decide, ?_, ?_⟩ <;> decide

/-- C3 counterexample. The claim says a single-device run with config
overrides `["epochs=2"]` executes with argument vector
`[recipe_path, "--config", config_path] ++ ["epochs=2"]`. On the code this
is false at the registered recipe `demo` with config `demo_cfg`:
`_run_single_device` assigns `sys.argv = [recipe_path, "--config",
config_path]` and never appends overrides (no override parameter even
reaches `_run_recipe`). -/
theorem single_device_overrides_counterexample :
    run_recipe "/tt" [demoRecipe] "demo" "demo_cfg" false 1 none true =
      Except.ok (LaunchAction.singleDevice
        ["/tt/recipes/demo.py", "--config", "/tt/recipes/configs/demo/demo_cfg.yaml"] true) ∧
    (["/tt/recipes/demo.py", "--config", "/tt/recipes/configs/demo/demo_cfg.yaml"] : List String) ≠
      ["/tt/recipes/demo.py", "--config", "/tt/recipes/configs/demo/demo_cfg.yaml"] ++
        ["epochs=2"] := by
  constructor <;> decide

/-- C3 amended. For every single-device run the argument vector handed to
the executed recipe is exactly `[recipe_path, "--config", config_path]`;
config overrides are never appended, so for any non-empty override list the
vector differs from the one the original claim describes. -/
theorem single_device_argv_exact (root : String) (registry : List Recipe)
    (recipe_name config_name : String) (num_processes : Nat)
    (rdzv_endpoint : Option String) (is_builtin : Bool)
    (config_path : String) (overrides : List String)
    (hc : resolveConfigPath root registry recipe_name config_name = Except.ok config_path)
    (hov : overrides ≠ []) :
    run_recipe root registry recipe_name config_name false num_processes
        rdzv_endpoint is_builtin =
      Except.ok (LaunchAction.singleDevice
        [resolvedRecipePath root registry recipe_name, "--config", config_path] is_builtin) ∧
    [resolvedRecipePath root registry recipe_name, "--config", config_path] ≠
      [resolvedRecipePath root registry recipe_name, "--config", config_path] ++ overrides := by
  constructor
  · unfold run_recipe
    rw [hc]
    rfl
  · intro h
    have hlen := congrArg List.length h
    simp at hlen
    exact hov hlen

/-- C3 amended, witness: the single-device run of the registered recipe
`demo` with config `demo_cfg` and override list `["epochs=2"]`. -/
theorem single_device_argv_exact_witness :
    run_recipe "/tt" [demoRecipe] "demo" "demo_cfg" false 1 none true =
      Except.ok (LaunchAction.singleDevice
        [resolvedRecipePath "/tt" [demoRecipe] "demo", "--config",
          "/tt/recipes/configs/demo/demo_cfg.yaml"] true) ∧
    [resolvedRecipePath "/tt" [demoRecipe] "demo", "--config",
      "/tt/recipes/configs/demo/demo_cfg.yaml"] ≠
      [resolvedRecipePath "/tt" [demoRecipe] "demo", "--config",
        "/tt/recipes/configs/demo/demo_cfg.yaml"] ++ ["epochs=2"] :=
  single_device_argv_exact "/tt" [demoRecipe] "demo" "demo_cfg" 1 none true
    "/tt/recipes/configs/demo/demo_cfg.yaml" ["epochs=2"] (by decide) (by decide)

/-- C8. A distributed run request naming a registered recipe with
`supports_distributed = False` raises
`ValueError("Recipe ... does not support distributed training")`: the
result is this error and in particular no launch specification is ever
produced for the distributed launcher. -/
theorem distributed_unsupported_rejected (root : String) (registry : List Recipe)
    (recipe_name config_name : String) (num_processes : Nat)
    (rdzv_endpoint : Option String) (is_builtin : Bool) (r : Recipe)
    (hr : findRecipe registry recipe_name = some r)
    (hd : r.supports_distributed = false) :
    run_recipe root registry recipe_name config_name true num_processes
        rdzv_endpoint is_builtin =
      Except.error (PyErr.valueError (distributedUnsupportedMsg recipe_name)) := by
  obtain ⟨p, hp⟩ := resolveConfigPath_found root registry recipe_name config_name r hr
  unfold run_recipe
  rw [hp]
  simp [supportsDistributedFlag, hr, hd]

/-- C8 witness: a distributed run of the registered recipe `demo` (which
declares no distributed support) with config `demo_cfg`. -/
theorem distributed_unsupported_rejected_witness :
    run_recipe "/tt" [demoRecipe] "demo" "demo_cfg" true 2 none true =
      Except.error (PyErr.valueError (distributedUnsupportedMsg "demo")) :=
  distributed_unsupported_rejected "/tt" [demoRecipe] "demo" "demo_cfg" 2 none true
    demoRecipe (by decide) (by decide)

/-- C10. For every recipe name absent from the registry the
`supports_distributed` local keeps its default `True`, so the
"does not support distributed training" branch is unreachable: the run is
never rejected with that `ValueError` (it fails earlier, in the config
lookup, with `AttributeError` — see `findConfigTwice`). -/
theorem user_recipe_distributed_default (root : String) (registry : List Recipe)
    (recipe_name config_name : String) (distributed : Bool)
    (num_processes : Nat) (rdzv_endpoint : Option String) (is_builtin : Bool)
    (hr : findRecipe registry recipe_name = none) :
    supportsDistributedFlag registry recipe_name = true ∧
    run_recipe root registry recipe_name config_name distributed num_processes
        rdzv_endpoint is_builtin =
      Except.error (PyErr.attributeError "NoneType object has no attribute configs") ∧
    ∀ msg : String, run_recipe root registry recipe_name config_name distributed
        num_processes rdzv_endpoint is_builtin ≠ Except.error (PyErr.valueError msg) := by
  have hc := resolveConfigPath_not_found root registry recipe_name config_name hr
  refine ⟨by simp [supportsDistributedFlag, hr], ?_, ?_⟩
  · unfold run_recipe
    rw [hc]
  · intro msg
    unfold run_recipe
    rw [hc]
    simp

/-- C10 witness: a distributed run of the unregistered recipe
`user.recipes.mine` against a registry holding only `demoRecipe`. -/
theorem user_recipe_distributed_default_witness :
    supportsDistributedFlag [demoRecipe] "user.recipes.mine" = true ∧
    run_recipe "/tt" [demoRecipe] "user.recipes.mine" "my_config.yaml" true 2 none false =
      Except.error (PyErr.attributeError "NoneType object has no attribute configs") ∧
    run_recipe "/tt" [demoRecipe] "user.recipes.mine" "my_config.yaml" true 2 none false ≠
      Except.error (PyErr.valueError (distributedUnsupportedMsg "user.recipes.mine")) :=
  ⟨(user_recipe_distributed_default "/tt" [demoRecipe] "user.recipes.mine" "my_config.yaml"
      true 2 none false (by decide)).1,
   (user_recipe_distributed_default "/tt" [demoRecipe] "user.recipes.mine" "my_config.yaml"
      true 2 none false (by decide)).2.1,
   (user_recipe_distributed_default "/tt" [demoRecipe] "user.recipes.mine" "my_config.yaml"
      true 2 none false (by decide)).2.2 (distributedUnsupportedMsg "user.recipes.mine")⟩

/-! ### File copier (`cp.py`)

Paths are modelled as a parent directory plus a final component (`name`),
mirroring the `pathlib` attributes the source uses; the destination
filesystem is an explicit value holding regular files (path, content) and
existing directories. -/

/-- A filesystem path split as `pathlib` sees it: `parent` and `name`. -/
structure PyPath where
  parent : String
  name : String
deriving DecidableEq

/-- The full string of a path. -/
def pathStr (p : PyPath) : String := p.parent ++ "/" ++ p.name

/-- The destination filesystem: regular files with contents, and the set of
existing directories. -/
structure FS where
  files : List (String × String)
  dirs : List String
deriving DecidableEq

/-- `Path.exists()` for a regular file. -/
def fsExists (fs : FS) (p : PyPath) : Bool :=
  (fs.files.lookup (pathStr p)).isSome

/-- Whether a directory exists. -/
def dirExists (fs : FS) (d : String) : Bool := fs.dirs.contains d

/-- Write (create or truncate) a regular file. -/
def fsWrite (files : List (String × String)) (k v : String) : List (String × String) :=
  (k, v) :: files.filter (fun kv => kv.1 != k)

/-- Index of the last `.` in a list of characters. -/
def lastDotIdx (cs : List Char) : Option Nat :=
  match cs.reverse.findIdx? (fun c => c == '.') with
  | none => none
  | some j => some (cs.length - 1 - j)

/-- `PurePath.suffix` computed on the final component: the substring from
the last dot, unless the dot is leading or trailing. -/
def pySuffixOfName (n : String) : String :=
  let cs := n.toList
  match lastDotIdx cs with
  | none => ""
  | some i => if 0 < i ∧ i + 1 < cs.length then String.mk (cs.drop i) else ""

/-- `PurePath.with_suffix` on the final component: strip the old suffix, if
any, and append the new one. -/
def pyWithSuffixName (n : String) (suffix : String) : String :=
  let old := pySuffixOfName n
  if old == "" then n ++ suffix
  else String.mk (n.toList.take (n.length - old.length)) ++ suffix

/-- The suffix adjustment of `_cp`: `if destination.name != "" and
destination.suffix != proper_suffix: destination =
destination.with_suffix(proper_suffix)`. -/
def adjustDestination (destination : PyPath) (proper_suffix : String) : PyPath :=
  if destination.name != "" && pySuffixOfName destination.name != proper_suffix then
    { destination with name := pyWithSuffixName destination.name proper_suffix }
  else destination

/-- The resolution loop of `_cp`, faithful to its control flow: the `break`
after a recipe-name match leaves the whole loop, while the `break` after a
config-name match only leaves the inner loop, so the outer loop continues
with the recipe/config source found so far as the accumulator. -/
def cpResolveLoop (root : String) (file : String) :
    List Recipe → Option (String × String) → Option (String × String)
  | [], acc => acc
  | r :: rest, acc =>
    if r.name == file then
      some (root ++ "/recipes/" ++ r.file_path, ".py")
    else
      match r.configs.find? (fun c => c.name == file) with
      | some c => cpResolveLoop root file rest
          (some (root ++ "/recipes/configs/" ++ c.file_path, ".yaml"))
      | none => cpResolveLoop root file rest acc

/-- The source file and proper suffix `_cp` resolves a logical name to
(`None` when nothing matches). -/
def cpResolve (root : String) (registry : List Recipe) (file : String) :
    Option (String × String) :=
  cpResolveLoop root file registry none

/-- The outcome of a copy: the written destination path, or the silent
no-clobber skip (the Python function falls through and returns `None`). -/
inductive CpResult where
  | copied (dest : PyPath)
  | skipped
deriving DecidableEq

/-- `_cp` from `cp.py`. `readSrc` is the external filesystem holding the
torchtune installation (what `shutil.copy` reads). `shutil.copy` raising
`FileNotFoundError` for a missing destination parent is modelled by the
directory check; `mkdir(parents=True, exist_ok=True)` adds the parent to
the directory set. -/
def cp (root : String) (registry : List Recipe) (readSrc : String → String)
    (file : String) (destination : PyPath) (no_clobber make_parents : Bool)
    (fs : FS) : Except PyErr (CpResult × FS) :=
  match cpResolve root registry file with
  | none =>
    Except.error (PyErr.valueError
      ("Invalid file name: " ++ file ++
       ". Use list_recipes() to see all available files to copy."))
  | some (src, proper_suffix) =>
    let destination := adjustDestination destination proper_suffix
    if no_clobber && fsExists fs destination then
      Except.ok (CpResult.skipped, fs)
    else
      let fs1 : FS :=
        if make_parents then
          { fs with dirs :=
              if fs.dirs.contains destination.parent then fs.dirs
              else destination.parent :: fs.dirs }
        else fs
      if dirExists fs1 destination.parent then
        Except.ok (CpResult.copied destination,
          { fs1 with files := fsWrite fs1.files (pathStr destination) (readSrc src) })
      else
        Except.error (PyErr.fileNotFoundError
          ("Cannot create regular file: " ++ pathStr destination ++
           ". No such file or directory. Set make_parents=True to create parent directories automatically."))

/-! ### Claim theorems about the copier -/

/-- Helper for C4: if some recipe's name matches `file`, the loop resolves
to the first such recipe's implementation file with the `.py` suffix,
whatever source an earlier config match had accumulated. -/
theorem cpResolveLoop_name_match (root file : String) :
    ∀ (l : List Recipe) (acc : Option (String × String)) (r : Recipe),
      l.find? (fun x => x.name == file) = some r →
      cpResolveLoop root file l acc = some (root ++ "/recipes/" ++ r.file_path, ".py") := by
  intro l
  induction l with
  | nil => intro acc r h; simp [List.find?] at h
  | cons x rest ih =>
    intro acc r h
    cases hx : (x.name == file) with
    | true =>
      simp [List.find?_cons, hx] at h
      cases h
      simp [cpResolveLoop, hx]
    | false =>
      simp [List.find?_cons, hx] at h
      cases hc : x.configs.find? (fun c => c.name == file) <;>
        simp [cpResolveLoop, hx, hc, ih _ r h]

/-- C4. Recipe names shadow config names in the copier: whenever the
registry contains a recipe whose name equals the requested file name, the
source resolved is that recipe's implementation file with proper suffix
`.py` — even when another recipe listed earlier has a config with that very
name (the loop then overwrites the config source it had found). -/
theorem cp_recipe_name_priority (root : String) (registry : List Recipe)
    (file : String) (r : Recipe)
    (hr : registry.find? (fun x => x.name == file) = some r) :
    cpResolve root registry file = some (root ++ "/recipes/" ++ r.file_path, ".py") :=
  cpResolveLoop_name_match root file registry none r hr

/-- A second recipe that owns a config named like `clashRecipe` itself and
is listed before it in the registry. -/
def shadowRecipe : Recipe :=
  { name := "other", file_path := "other.py",
    configs := [{ name := "clash", file_path := "other/clash.yaml" }],
    supports_distributed := true }

/-- A recipe whose own name equals the config name of `shadowRecipe`. -/
def clashRecipe : Recipe :=
  { name := "clash", file_path := "clash.py", configs := [],
    supports_distributed := true }

/-- C4 witness: `shadowRecipe` (listed first) has a config named `clash`,
yet resolving `clash` yields the implementation file of the recipe named
`clash`. -/
theorem cp_recipe_name_priority_witness :
    cpResolve "/tt" [shadowRecipe, clashRecipe] "clash" =
      some ("/tt/recipes/clash.py", ".py") :=
  cp_recipe_name_priority "/tt" [shadowRecipe, clashRecipe] "clash" clashRecipe (by decide)

/-- C5. A copy with `no_clobber = True` whose suffix-adjusted destination
already exists is skipped: the function returns without a result
(`CpResult.skipped`, the Python `None`), raises nothing, and the
filesystem — in particular the destination's content — is unchanged. -/
theorem cp_no_clobber_skips (root : String) (registry : List Recipe)
    (readSrc : String → String) (file : String) (destination : PyPath)
    (make_parents : Bool) (fs : FS) (src proper_suffix : String)
    (hres : cpResolve root registry file = some (src, proper_suffix))
    (hex : fsExists fs (adjustDestination destination proper_suffix) = true) :
    cp root registry readSrc file destination true make_parents fs =
      Except.ok (CpResult.skipped, fs) := by
  unfold cp
  rw [hres]
  simp [hex]

/-- C5 witness: copying recipe `demo` over an existing `/work/demo.py` with
`no_clobber = True` leaves the filesystem untouched and reports no result. -/
theorem cp_no_clobber_skips_witness :
    cp "/tt" [demoRecipe] (fun _ => "recipe source") "demo"
        { parent := "/work", name := "demo.py" } true false
        { files := [("/work/demo.py", "old content")], dirs := ["/work"] } =
      Except.ok (CpResult.skipped,
        { files := [("/work/demo.py", "old content")], dirs := ["/work"] }) :=
  cp_no_clobber_skips "/tt" [demoRecipe] (fun _ => "recipe source") "demo"
    { parent := "/work", name := "demo.py" } false
    { files := [("/work/demo.py", "old content")], dirs := ["/work"] }
    "/tt/recipes/demo.py" ".py" (by decide) (by decide)

/-! ### Config settings reader (`configs.py`) -/

/-- The external world `_get_config_settings` interacts with: whether the
resolved file exists, and what `OmegaConf.load` returns for it — a parse
error with the parser's message, an empty document (`None`), or a parsed
mapping (values kept as strings). -/
structure ConfigWorld where
  fileExists : Bool
  loadResult : Except String (Option (List (String × String)))
deriving DecidableEq

/-- `_get_config_settings` from `configs.py`. Everything happens inside one
`try` block: the `FileNotFoundError` for a missing file and the
`ValueError` for an empty document raised in the body are both caught by
the trailing `except Exception` clause and re-raised as a plain
`Exception("Error parsing configuration file: ...")`, while an
`OmegaConfBaseException` is re-raised as a `ValueError` by the earlier
clause. -/
def get_config_settings (torchtune_root : String) (config_name : String)
    (w : ConfigWorld) : Except PyErr (List (String × String)) :=
  let config_path := torchtune_root ++ "/recipes/configs/" ++ config_name
  let body : Except PyErr (List (String × String)) :=
    if !w.fileExists then
      Except.error (PyErr.fileNotFoundError ("Configuration file not found: " ++ config_path))
    else
      match w.loadResult with
      | Except.error m => Except.error (PyErr.omegaConfError m)
      | Except.ok none => Except.error (PyErr.valueError "Configuration file is empty")
      | Except.ok (some settings) => Except.ok settings
  match body with
  | Except.ok v => Except.ok v
  | Except.error (PyErr.omegaConfError m) =>
    Except.error (PyErr.valueError ("Error parsing configuration file: " ++ m))
  | Except.error e =>
    Except.error (PyErr.genericExc ("Error parsing configuration file: " ++ pyErrMsg e))

/-- C6. The claim says a missing file fails with a not-found error, an
empty document fails with an invalid-config error, and the failure kinds
stay distinguishable rather than collapsing into a generic wrapped error.
On the code this is false: the blanket `except Exception` clause at the end
of `_get_config_settings` catches the function's own `FileNotFoundError`
and `ValueError` and re-raises both as a plain
`Exception("Error parsing configuration file: ...")` — contradicting the
docstring's declared `Raises:` section. Only the "never returns an
empty-but-successful result" part survives. -/
theorem config_settings_errors_collapsed :
    get_config_settings "/tt" "missing.yaml"
        { fileExists := false, loadResult := Except.ok none } =
      Except.error (PyErr.genericExc
        "Error parsing configuration file: Configuration file not found: /tt/recipes/configs/missing.yaml") ∧
    get_config_settings "/tt" "empty.yaml"
        { fileExists := true, loadResult := Except.ok none } =
      Except.error (PyErr.genericExc
        "Error parsing configuration file: Configuration file is empty") ∧
    (∀ m : String, get_config_settings "/tt" "missing.yaml"
        { fileExists := false, loadResult := Except.ok none } ≠
      Except.error (PyErr.fileNotFoundError m)) ∧
    (∀ m : String, get_config_settings "/tt" "empty.yaml"
        { fileExists := true, loadResult := Except.ok none } ≠
      Except.error (PyErr.valueError m)) := by
  refine ⟨by decide, by decide, ?_, ?_⟩ <;> intro m <;> simp [get_config_settings, pyErrMsg]

/-! ### Hugging Face downloader (`download.py`) -/

/-- How the external `snapshot_download` call can fail. -/
inductive HubErr where
  | gatedRepo
  | repoNotFound
  | otherErr (msg : String)
deriving DecidableEq

/-- The external world of `_download_from_huggingface`: the torchtune
constant `REPO_ID_FNAME` and the outcome of the `snapshot_download` call —
on success the true output directory together with the names of its
top-level entries. -/
structure HFWorld where
  repoIdFname : String
  snapshotResult : Except HubErr (String × List String)
deriving DecidableEq

/-- Python truthiness of an optional string (`if hf_token:`): `None` and
the empty string are falsy. -/
def pyTruthyStrOpt : Option String → Bool
  | none => false
  | some s => !(s == "")

/-- The access-denied message raised when a token was supplied. -/
def hfAccessDeniedWithToken : String :=
  "Access denied. Please ensure you have access to the repository."

/-- The access-denied message raised when no token was supplied; it
instructs the caller how to obtain a token. -/
def hfAccessDeniedNoToken : String :=
  "Access denied. Please provide a Hugging Face token via hf_token or by running `huggingface-cli login`. Get your token at https://huggingface.co/settings/tokens"

/-- `_download_from_huggingface` from `download.py`. The default output
directory is derived from the trailing path segment of the repo id; the
backend call itself is the world's `snapshotResult`. On success the sidecar
`{REPO_ID_FNAME}.json` is written into the true output directory and the
directory is then listed, so the listing contains the sidecar (appended
unless an entry of that name was already present). -/
def download_from_huggingface (repo_id : String) (output_dir : Option String)
    (hf_token : Option String) (w : HFWorld) : Except PyErr (List String) :=
  let _output_dir : String :=
    match output_dir with
    | none => "/tmp/" ++ (((repo_id.splitOn "/").getLast?).getD "")
    | some d => d
  match w.snapshotResult with
  | Except.error HubErr.gatedRepo =>
    if pyTruthyStrOpt hf_token then
      Except.error (PyErr.valueError hfAccessDeniedWithToken)
    else
      Except.error (PyErr.valueError hfAccessDeniedNoToken)
  | Except.error HubErr.repoNotFound =>
    Except.error (PyErr.valueError
      ("Repository " ++ repo_id ++ " not found on the Hugging Face Hub."))
  | Except.error (HubErr.otherErr m) =>
    Except.error (PyErr.runtimeError ("Failed to download " ++ repo_id ++ ": " ++ m))
  | Except.ok (true_output_dir, entries) =>
    let sidecarName := w.repoIdFname ++ ".json"
    let entriesAfterWrite :=
      if entries.contains sidecarName then entries else entries ++ [sidecarName]
    Except.ok (entriesAfterWrite.map (fun n => true_output_dir ++ "/" ++ n))

/-- C7. When the backend reports a gated repository, the raised
access-denied message depends on whether a (truthy) token was supplied:
with a token it is the generic message, without one it is the message that
instructs how to obtain a token — and the two messages differ. -/
theorem gated_repo_messages (repo_id : String) (output_dir : Option String)
    (hf_token : Option String) (w : HFWorld)
    (hg : w.snapshotResult = Except.error HubErr.gatedRepo) :
    (pyTruthyStrOpt hf_token = true →
      download_from_huggingface repo_id output_dir hf_token w =
        Except.error (PyErr.valueError hfAccessDeniedWithToken)) ∧
    (pyTruthyStrOpt hf_token = false →
      download_from_huggingface repo_id output_dir hf_token w =
        Except.error (PyErr.valueError hfAccessDeniedNoToken)) ∧
    hfAccessDeniedWithToken ≠ hfAccessDeniedNoToken := by
  refine ⟨?_, ?_, by decide⟩ <;> intro ht <;>
    simp [download_from_huggingface, hg, ht]

/-- C7 witness: a gated-repo failure with token `hf_abc` yields the generic
message; the same failure with no token yields the instructive one. -/
theorem gated_repo_messages_witness :
    (pyTruthyStrOpt (some "hf_abc") = true →
      download_from_huggingface "meta/llama" none (some "hf_abc")
          { repoIdFname := "original_repo_id",
            snapshotResult := Except.error HubErr.gatedRepo } =
        Except.error (PyErr.valueError hfAccessDeniedWithToken)) ∧
    (pyTruthyStrOpt (some "hf_abc") = false →
      download_from_huggingface "meta/llama" none (some "hf_abc")
          { repoIdFname := "original_repo_id",
            snapshotResult := Except.error HubErr.gatedRepo } =
        Except.error (PyErr.valueError hfAccessDeniedNoToken)) ∧
    hfAccessDeniedWithToken ≠ hfAccessDeniedNoToken :=
  gated_repo_messages "meta/llama" none (some "hf_abc")
    { repoIdFname := "original_repo_id", snapshotResult := Except.error HubErr.gatedRepo }
    rfl

/-- C9. On every successful download the sidecar metadata file
`{REPO_ID_FNAME}.json` is written into the true output directory before the
directory is listed, so the returned list of top-level paths contains the
sidecar path. -/
theorem sidecar_in_returned_files (repo_id : String) (output_dir : Option String)
    (hf_token : Option String) (w : HFWorld)
    (true_output_dir : String) (entries : List String)
    (hs : w.snapshotResult = Except.ok (true_output_dir, entries)) :
    ∃ l, download_from_huggingface repo_id output_dir hf_token w = Except.ok l ∧
      (true_output_dir ++ "/" ++ (w.repoIdFname ++ ".json")) ∈ l := by
  refine ⟨(if entries.contains (w.repoIdFname ++ ".json") then entries
            else entries ++ [w.repoIdFname ++ ".json"]).map
              (fun n => true_output_dir ++ "/" ++ n), ?_, ?_⟩
  · simp only [download_from_huggingface, hs]
  · apply List.mem_map_of_mem
    by_cases hc : (w.repoIdFname ++ ".json") ∈ entries
    · simp [hc]
    · simp [hc]

/-- C9 witness: downloading `meta/llama` with two model files returns a
listing that contains `/dl/original_repo_id.json`. -/
theorem sidecar_in_returned_files_witness :
    ∃ l, download_from_huggingface "meta/llama" none none
        { repoIdFname := "original_repo_id",
          snapshotResult := Except.ok ("/dl", ["model.safetensors", "config.json"]) } =
      Except.ok l ∧ ("/dl" ++ "/" ++ ("original_repo_id" ++ ".json")) ∈ l :=
  sidecar_in_returned_files "meta/llama" none none
    { repoIdFname := "original_repo_id",
      snapshotResult := Except.ok ("/dl", ["model.safetensors", "config.json"]) }
    "/dl" ["model.safetensors", "config.json"] rfl

/-! ### The `POST /run` handler (`src/tuneapi/app.py`)

The handler calls `_run_recipe(**request.model_dump())`. Keyword binding
against the Python signature of `_run_recipe` is modelled explicitly: a
call raises `TypeError` when a keyword does not name a parameter, or when a
parameter without a default receives no value. -/

/-- A Python value appearing in the run request's `model_dump`. -/
inductive PyVal where
  | str (s : String)
  | pyBool (b : Bool)
  | pyNat (n : Nat)
  | strList (l : List String)
  | noneV
deriving DecidableEq

/-- The parameters of `_run_recipe` in order, each with its declared
default (`none` for the two required parameters). -/
def runRecipeParams : List (String × Option PyVal) :=
  [("recipe_name", none),
   ("config_name", none),
   ("distributed", some (PyVal.pyBool false)),
   ("num_processes", some (PyVal.pyNat 1)),
   ("rdzv_endpoint", some PyVal.noneV),
   ("is_builtin", some (PyVal.pyBool true))]

/-- The first keyword of the call that names no parameter of the callee
(CPython reports such a keyword with `TypeError`). -/
def firstUnexpectedKw (params : List (String × Option PyVal))
    (kwargs : List (String × PyVal)) : Option String :=
  match kwargs.find? (fun kv => !(params.any (fun p => p.1 == kv.1))) with
  | some kv => some kv.1
  | none => none

/-- Bind one parameter: the keyword value if given, else the declared
default, else a `TypeError` for a missing required argument. -/
def bindParam (kwargs : List (String × PyVal)) (pname : String)
    (pdefault : Option PyVal) : Except PyErr PyVal :=
  match kwargs.lookup pname with
  | some v => Except.ok v
  | none =>
    match pdefault with
    | some d => Except.ok d
    | none =>
      Except.error (PyErr.typeError
        ("_run_recipe() missing 1 required positional argument: " ++ pname))

/-- Coerce a `PyVal` to the type the parameter carries in the signature of
`_run_recipe`; the call sites in this codebase never reach the dispatch
with an ill-typed value, so a mismatch is modelled as a `TypeError`. -/
def pyValStr : PyVal → Option String
  | PyVal.str s => some s
  | _ => none

/-- Coerce to a boolean. -/
def pyValBool : PyVal → Option Bool
  | PyVal.pyBool b => some b
  | _ => none

/-- Coerce to a natural number. -/
def pyValNat : PyVal → Option Nat
  | PyVal.pyNat n => some n
  | _ => none

/-- Coerce to an optional string (`None` allowed). -/
def pyValOptStr : PyVal → Option (Option String)
  | PyVal.str s => some (some s)
  | PyVal.noneV => some none
  | _ => none

/-- A keyword call of `_run_recipe`: bind the keywords against the
signature, then dispatch to `run_recipe`. -/
def call_run_recipe (root : String) (registry : List Recipe)
    (kwargs : List (String × PyVal)) : Except PyErr LaunchAction :=
  match firstUnexpectedKw runRecipeParams kwargs with
  | some k =>
    Except.error (PyErr.typeError
      ("_run_recipe() got an unexpected keyword argument " ++ k))
  | none => do
    let v1 ← bindParam kwargs "recipe_name" none
    let v2 ← bindParam kwargs "config_name" none
    let v3 ← bindParam kwargs "distributed" (some (PyVal.pyBool false))
    let v4 ← bindParam kwargs "num_processes" (some (PyVal.pyNat 1))
    let v5 ← bindParam kwargs "rdzv_endpoint" (some PyVal.noneV)
    let v6 ← bindParam kwargs "is_builtin" (some (PyVal.pyBool true))
    match pyValStr v1, pyValStr v2, pyValBool v3, pyValNat v4,
        pyValOptStr v5, pyValBool v6 with
    | some recipe_name, some config_name, some distributed, some num_processes,
        some rdzv_endpoint, some is_builtin =>
      run_recipe root registry recipe_name config_name distributed num_processes
        rdzv_endpoint is_builtin
    | _, _, _, _, _, _ => Except.error (PyErr.typeError "argument of unexpected type")

/-- The body of `POST /run` after pydantic validation: `recipe`, `config`,
and the two lists that the field validator turns from `None` into `[]`. -/
structure RunRequest where
  recipe : String
  config : String
  distributed_args : List String
  config_overrides : List String
deriving DecidableEq

/-- `request.model_dump()` in the field declaration order of `RunRequest`. -/
def runRequestKwargs (req : RunRequest) : List (String × PyVal) :=
  [("recipe", PyVal.str req.recipe),
   ("config", PyVal.str req.config),
   ("distributed_args", PyVal.strList req.distributed_args),
   ("config_overrides", PyVal.strList req.config_overrides)]

/-- An HTTP response of the facade: empty 200 success, or an error status
with a `detail` message. -/
inductive HTTPResp where
  | ok200Empty
  | httpError (status : Nat) (detail : String)
deriving DecidableEq

/-- The `POST /run` handler: forwards `model_dump()` as keyword arguments
to `_run_recipe`; any exception becomes `HTTPException(400, str(e))`. -/
def run_handler (root : String) (registry : List Recipe) (req : RunRequest) : HTTPResp :=
  match call_run_recipe root registry (runRequestKwargs req) with
  | Except.ok _ => HTTPResp.ok200Empty
  | Except.error e => HTTPResp.httpError 400 (pyErrMsg e)

/-- C1. The claim says that for a registered recipe and one of its configs
`POST /run` completes with an empty 200 because the handler forwards the
body's fields as keyword arguments accepted by `_run_recipe`. On the code
this is false: `_run_recipe` accepts `recipe_name`, `config_name`,
`distributed`, `num_processes`, `rdzv_endpoint`, `is_builtin`, so the
forwarded keyword `recipe` is unexpected, the call raises `TypeError`, and
the handler maps it to HTTP 400 — shown here at the registered recipe
`demo` with its config `demo_cfg`. -/
theorem run_handler_kwargs_mismatch :
    findRecipe [demoRecipe] "demo" = some demoRecipe ∧
    (demoRecipe.configs.find? (fun c => c.name == "demo_cfg")).isSome = true ∧
    firstUnexpectedKw runRecipeParams
        (runRequestKwargs
          { recipe := "demo", config := "demo_cfg",
            distributed_args := [], config_overrides := [] }) = some "recipe" ∧
    run_handler "/tt" [demoRecipe]
        { recipe := "demo", config := "demo_cfg",
          distributed_args := [], config_overrides := [] } =
      HTTPResp.httpError 400 "_run_recipe() got an unexpected keyword argument recipe" ∧
    run_handler "/tt" [demoRecipe]
        { recipe := "demo", config := "demo_cfg",
          distributed_args := [], config_overrides := [] } ≠
      HTTPResp.ok200Empty := by
  refine ⟨by decide, by decide, by decide, by decide, by decide⟩

end Tuneapi
